import Mathlib

/-!
Verification of the declaration surface of
`src/RoverIos/RoverIos/Gears/gears.h`, the only source file of the
repository.  The header is transcribed into a small model of C
declarations (`Decl`), and the claims about its interface are proved
over that transcription.
-/

/-- Model of the C types occurring in the header: `void`, `char`,
`const T`, `T *`, a unary function-pointer type `ret (*)(arg)` (the only
function-pointer shape appearing in the header), and a reference to a
type by name (such as `NSObject` or `Callback`). -/
inductive CType where
  | void : CType
  | char : CType
  | konst : CType → CType
  | ptr : CType → CType
  | funPtr1 : CType → CType → CType
  | named : String → CType
  deriving DecidableEq, Repr

/-- Model of a C statement.  The header contains no function bodies, so no
value of this type appears in the transcription; the type exists so that a
function declaration may in principle carry a body. -/
inductive CStmt where
  | exprStmt : String → CStmt
  | retStmt : CStmt
  deriving DecidableEq, Repr

/-- A formal parameter of a C function: its name and its declared type. -/
structure Param where
  pname : String
  pty : CType
  deriving DecidableEq, Repr

/-- A C function declaration (or definition, when `body` is present):
name, parameter list, return type, and optional body. -/
structure FunDecl where
  fname : String
  params : List Param
  ret : CType
  body : Option (List CStmt)
  deriving DecidableEq, Repr

/-- A top-level item of a C header: an `#include` directive, a `typedef`,
a function declaration, a `struct` definition, an `enum` definition, or a
global variable declaration. -/
inductive Decl where
  | includeDirective : String → Decl
  | typedefDecl : String → CType → Decl
  | fundecl : FunDecl → Decl
  | structDecl : String → List Param → Decl
  | enumDecl : String → List String → Decl
  | varDecl : String → CType → Decl
  deriving DecidableEq, Repr

/-- Transcription of `gears.h`, item by item:

```
#include <stdarg.h>
#include <stdbool.h>
#include <stdint.h>
#include <stdlib.h>

typedef void (*Callback)(const char*);

void start(NSObject *view, const char *path);

void devServer(Callback callback);
``` -/
def gears_h : List Decl :=
  [ .includeDirective "stdarg.h",
    .includeDirective "stdbool.h",
    .includeDirective "stdint.h",
    .includeDirective "stdlib.h",
    .typedefDecl "Callback" (.funPtr1 (.ptr (.konst .char)) .void),
    .fundecl ⟨"start",
              [⟨"view", .ptr (.named "NSObject")⟩,
               ⟨"path", .ptr (.konst .char)⟩],
              .void, none⟩,
    .fundecl ⟨"devServer",
              [⟨"callback", .named "Callback"⟩],
              .void, none⟩ ]

/-- Whether a declaration is an `#include` directive. -/
def Decl.isInclude : Decl → Bool
  | .includeDirective _ => true
  | _ => false

/-- Whether a declaration is a `typedef`. -/
def Decl.isTypedef : Decl → Bool
  | .typedefDecl _ _ => true
  | _ => false

/-- Whether a declaration is a function declaration. -/
def Decl.isFun : Decl → Bool
  | .fundecl _ => true
  | _ => false

/-- Whether a declaration is a `struct` definition. -/
def Decl.isStruct : Decl → Bool
  | .structDecl _ _ => true
  | _ => false

/-- Whether a declaration is an `enum` definition. -/
def Decl.isEnum : Decl → Bool
  | .enumDecl _ _ => true
  | _ => false

/-- Whether a declaration is a global variable declaration. -/
def Decl.isVar : Decl → Bool
  | .varDecl _ _ => true
  | _ => false

/-- The function declarations of a header, in order. -/
def funDecls (ds : List Decl) : List FunDecl :=
  ds.filterMap fun d => match d with
    | .fundecl f => some f
    | _ => none

/-- The names of the functions a header declares, in order. -/
def funNames (ds : List Decl) : List String :=
  (funDecls ds).map FunDecl.fname

/-- The declaration of the function named `n`, when the header has one. -/
def findFun (n : String) (ds : List Decl) : Option FunDecl :=
  (funDecls ds).find? fun f => f.fname == n

/-- The `typedef`s of a header as name/type pairs, in order. -/
def typedefPairs (ds : List Decl) : List (String × CType) :=
  ds.filterMap fun d => match d with
    | .typedefDecl n t => some (n, t)
    | _ => none

/-- The headers a header `#include`s, in order. -/
def includedHeaders (ds : List Decl) : List String :=
  ds.filterMap fun d => match d with
    | .includeDirective h => some h
    | _ => none

/-- The type names a header itself introduces: `typedef`, `struct` and
`enum` names. -/
def declaredTypeNames (ds : List Decl) : List String :=
  ds.filterMap fun d => match d with
    | .typedefDecl n _ => some n
    | .structDecl n _ => some n
    | .enumDecl n _ => some n
    | _ => none

/-- The names a type refers to, recursively. -/
def CType.namedRefs : CType → List String
  | .named n => [n]
  | .ptr t => t.namedRefs
  | .konst t => t.namedRefs
  | .funPtr1 a r => a.namedRefs ++ r.namedRefs
  | .void => []
  | .char => []

/-- Every type name a declaration refers to. -/
def Decl.namedRefs : Decl → List String
  | .includeDirective _ => []
  | .typedefDecl _ t => t.namedRefs
  | .fundecl f => f.ret.namedRefs ++ (f.params.map fun p => p.pty.namedRefs).flatten
  | .structDecl _ ps => (ps.map fun p => p.pty.namedRefs).flatten
  | .enumDecl _ _ => []
  | .varDecl _ t => t.namedRefs

/-- Every type name a header refers to. -/
def usedTypeNames (ds : List Decl) : List String :=
  (ds.map Decl.namedRefs).flatten

/-- One step of typedef expansion against the header's typedefs: a bare
type name bound by a `typedef` is replaced by the type it abbreviates. -/
def expandTypedef (ds : List Decl) : CType → CType
  | .named n =>
      match (typedefPairs ds).find? (fun p => p.1 == n) with
      | some p => p.2
      | none => .named n
  | t => t

/-- Type names which C11 guarantees the four included standard headers
(`stdarg.h`, `stdbool.h`, `stdint.h`, `stdlib.h`) to provide. -/
def stdIncludeTypeNames : List String :=
  [ "va_list",
    "bool",
    "int8_t", "int16_t", "int32_t", "int64_t",
    "uint8_t", "uint16_t", "uint32_t", "uint64_t",
    "int_least8_t", "int_least16_t", "int_least32_t", "int_least64_t",
    "uint_least8_t", "uint_least16_t", "uint_least32_t", "uint_least64_t",
    "int_fast8_t", "int_fast16_t", "int_fast32_t", "int_fast64_t",
    "uint_fast8_t", "uint_fast16_t", "uint_fast32_t", "uint_fast64_t",
    "intmax_t", "uintmax_t", "intptr_t", "uintptr_t",
    "size_t", "wchar_t", "div_t", "ldiv_t", "lldiv_t" ]

/-- Whether every type name the header uses is resolved, given that the
compilation environment additionally provides the type names in `env`:
a name must come from the header's own declarations, from its four
standard-library includes, or from `env`. -/
def headerResolvesIn (ds : List Decl) (env : List String) : Bool :=
  (usedTypeNames ds).all fun n =>
    (declaredTypeNames ds).contains n
      || stdIncludeTypeNames.contains n
      || env.contains n

/-- Claim C1: the header's entire external interface consists of exactly
the two C-callable entry points `start` and `devServer`; every other item
of the header is an `#include` directive or a type alias, so no further
function, variable, struct or enum is exposed. -/
theorem C1_interface_is_exactly_start_and_devServer :
    funNames gears_h = ["start", "devServer"] ∧
    (gears_h.all fun d => d.isInclude || d.isTypedef || d.isFun) = true := by
  decide

/-- Claim C2 counterexample: the first parameter of `start` is not a type
named `ViewHandle`; indeed the name `ViewHandle` neither is declared nor
occurs anywhere in the header.  The parameter's actual type is
`NSObject *`. -/
theorem C2_counterexample_no_ViewHandle_type :
    ((findFun "start" gears_h).map fun f => f.params.map Param.pty)
      ≠ some [CType.named "ViewHandle", CType.ptr (CType.konst CType.char)] ∧
    "ViewHandle" ∉ declaredTypeNames gears_h ∧
    "ViewHandle" ∉ usedTypeNames gears_h ∧
    ((findFun "start" gears_h).map fun f => f.params.map Param.pty)
      = some [CType.ptr (CType.named "NSObject"),
              CType.ptr (CType.konst CType.char)] := by
  decide

/-- Claim C2 (amended): the function `start` has exactly the signature
`void start(NSObject *view, const char *path)`: its first parameter is a
pointer to the opaque type `NSObject`, its second parameter is a
null-terminated string named `path`, and it returns no value. -/
theorem C2_start_signature :
    findFun "start" gears_h =
      some ⟨"start",
            [⟨"view", CType.ptr (CType.named "NSObject")⟩,
             ⟨"path", CType.ptr (CType.konst CType.char)⟩],
            CType.void, none⟩ := by
  decide

/-- Claim C3: `devServer` has exactly the signature
`void devServer(void (*callback)(const char *))`: its single parameter,
named `callback` and declared via the header's `Callback` typedef, expands
to a function pointer taking one `const char *` argument and returning
nothing, and `devServer` itself returns no value. -/
theorem C3_devServer_signature :
    ((findFun "devServer" gears_h).map fun f =>
        (f.params.map fun p => (p.pname, expandTypedef gears_h p.pty), f.ret))
      = some ([("callback",
                CType.funPtr1 (CType.ptr (CType.konst CType.char)) CType.void)],
              CType.void) := by
  decide

/-- Claim C4: neither `start` nor `devServer` signals failure through its
declared interface: every function the header declares returns `void`, and
every parameter type of every declared function expands to a pointer or a
function pointer, so no error code, output error parameter or other
failure channel appears in the declarations. -/
theorem C4_no_failure_path_in_declarations :
    ((funDecls gears_h).all fun f => f.ret == CType.void) = true ∧
    ((funDecls gears_h).all fun f =>
        f.params.all fun p =>
          match expandTypedef gears_h p.pty with
          | CType.ptr _ => true
          | CType.funPtr1 _ _ => true
          | _ => false) = true := by
  decide

/-- Claim C5: the header contains declarations only: no function it
declares carries a body, so no behaviour of `start` or `devServer` is
defined by the supplied material. -/
theorem C5_declarations_only_no_bodies :
    ((funDecls gears_h).all fun f => f.body == none) = true ∧
    funDecls gears_h ≠ [] := by
  decide

/-- Claim C6: the only value types appearing in the interface are the
opaque view-handle pointer `NSObject *`, the null-terminated string type
`const char *`, and a function pointer taking a single string argument;
the header defines no struct and no enum. -/
theorem C6_interface_value_types :
    ((funDecls gears_h).map fun f =>
        f.params.map fun p => expandTypedef gears_h p.pty).flatten
      = [CType.ptr (CType.named "NSObject"),
         CType.ptr (CType.konst CType.char),
         CType.funPtr1 (CType.ptr (CType.konst CType.char)) CType.void] ∧
    (gears_h.all fun d => !d.isStruct && !d.isEnum) = true := by
  decide

/-- Claim C7: the header declares no global variable and names no state
object: every item is one of the four standard-library `#include`s, the
`Callback` typedef, or one of the two function declarations. -/
theorem C7_no_state_declared :
    (gears_h.all fun d => !d.isVar) = true ∧
    includedHeaders gears_h = ["stdarg.h", "stdbool.h", "stdint.h", "stdlib.h"] ∧
    (gears_h.all fun d => d.isInclude || d.isTypedef || d.isFun) = true := by
  decide

/-- Claim C8: the first parameter of `start` is concretely typed
`NSObject *`; the name `NSObject` is neither declared by the header nor
provided by its four C standard-library includes, so the header's type
names resolve only when the compilation environment supplies `NSObject`
(an Objective-C context), and the opaque view handle is an `NSObject`
pointer rather than an abstract `ViewHandle` typedef. -/
theorem C8_start_requires_NSObject_from_environment :
    ((findFun "start" gears_h).map fun f => f.params.map Param.pty).map List.head?
      = some (some (CType.ptr (CType.named "NSObject"))) ∧
    "NSObject" ∉ declaredTypeNames gears_h ∧
    "NSObject" ∉ stdIncludeTypeNames ∧
    headerResolvesIn gears_h [] = false ∧
    headerResolvesIn gears_h ["NSObject"] = true ∧
    "ViewHandle" ∉ declaredTypeNames gears_h := by
  decide

/-- Claim C9: the header publicly binds the typedef name `Callback` to the
function-pointer type `void (*)(const char*)`, and `devServer`'s parameter
is spelled with that name, so `Callback` is itself part of the header's
interface. -/
theorem C9_Callback_typedef_is_public :
    typedefPairs gears_h
      = [("Callback",
          CType.funPtr1 (CType.ptr (CType.konst CType.char)) CType.void)] ∧
    ((findFun "devServer" gears_h).map fun f => f.params.map Param.pty)
      = some [CType.named "Callback"] := by
  decide
